import Mathlib

/-!
Shallow embedding of the bootstrap to navigation synchronization protocol of
packages/router/src/router_module.ts: the RouterInitializer class with its
appInitializer, bootstrapListener and ngOnDestroy methods, together with the
single-fire completion subject resultOfPreactivationDone and the
afterPreactivation hook it installs on the router.

The coordinator is modelled as a record of its mutable fields plus the
observable state of the two promises and of the completion subject.  Each
externally triggered lifecycle event (the appInitializer call, the settling of
the LOCATION_INITIALIZED gate, the navigation pipeline reaching the
pre-activation point, a bootstrapListener invocation, ngOnDestroy) is one step
of a transition function that also emits the trace of outbound calls the
source makes on that step: dependency-container lookups and Navigation Engine
calls.  Component refs are opaque handles modelled as naturals; the
configuration field opts.initialNavigation is a TypeScript optional string,
modelled as Option String so that values outside the declared union type are
representable, exactly as they are at runtime.
-/

/-- Tokens looked up through the dependency container in the source:
LOCATION_INITIALIZED, Router, ROUTER_CONFIGURATION, RouterPreloader,
RouterScroller, ApplicationRef. -/
inductive Token where
  | locationInitialized
  | router
  | routerConfiguration
  | routerPreloader
  | routerScroller
  | applicationRef
deriving DecidableEq, Repr

/-- Observable outbound calls made by the coordinator, in source order. -/
inductive Effect where
  | injGet (t : Token)
  | setUpLocationChangeListener
  | setAfterPreactivationHook
  | initialNavigation
  | hookReturnedGate
  | hookReturnedResolved
  | setUpPreloading
  | scrollerInit
  | resetRootComponentType
  | gateNextCall
  | gateCompleteCall
deriving DecidableEq, Repr

/-- State of the resultOfPreactivationDone subject.  Modelled after the rxjs
Subject semantics the source relies on: next plus complete moves it to the
stopped (fired) state; next and complete on a stopped subject are no-ops; a
subscriber attaching to a stopped subject is notified of completion
immediately. -/
inductive GateState where
  | pending
  | fired
deriving DecidableEq, Repr

/-- What a subscriber attaching to the gate observes. -/
inductive SubscriberOutcome where
  | waits
  | completes
deriving DecidableEq, Repr

/-- Subscribing to the completion subject: a stopped subject notifies the
subscriber of completion at once; a pending one leaves it waiting. -/
def subscribeGate : GateState → SubscriberOutcome
  | GateState.pending => SubscriberOutcome.waits
  | GateState.fired => SubscriberOutcome.completes

/-- The configuration environment: opts.initialNavigation (an optional string
at runtime) and ApplicationRef.components[0] (absent when no component has
been bootstrapped), with component refs as opaque handles. -/
structure Config where
  initialNavigation : Option String
  firstRoot : Option Nat
deriving DecidableEq, Repr

/-- Coordinator state: the three fields of RouterInitializer plus the
observable status of the promise returned by appInitializer, whether the
afterPreactivation hook has been assigned, and whether a navigation is
currently paused awaiting the gate. -/
structure CoordState where
  initNavigation : Bool
  destroyed : Bool
  gate : GateState
  hookInstalled : Bool
  appInitResolved : Bool
  pausedOnGate : Bool
deriving DecidableEq, Repr

/-- The freshly constructed RouterInitializer: both flags false, subject
pending, no hook installed, promise not yet resolved. -/
def initState : CoordState :=
  { initNavigation := false
    destroyed := false
    gate := GateState.pending
    hookInstalled := false
    appInitResolved := false
    pausedOnGate := false }

/-- Externally triggered lifecycle events driving the coordinator. -/
inductive Event where
  | appInitializerCall
  | locationGateSettled
  | preActivation
  | bootstrapListenerCall (r : Nat)
  | ngOnDestroyCall
deriving DecidableEq, Repr

/-- The five container lookups bootstrapListener performs before its guard. -/
def bootstrapLookups : List Effect :=
  [Effect.injGet Token.routerConfiguration,
   Effect.injGet Token.routerPreloader,
   Effect.injGet Token.routerScroller,
   Effect.injGet Token.router,
   Effect.injGet Token.applicationRef]

/-- One step of the coordinator.  Each branch mirrors the corresponding code
in router_module.ts:

appInitializerCall: the body of appInitializer up to returning p.then(...);
it looks up LOCATION_INITIALIZED.

locationGateSettled: the continuation passed to p.then.  If destroyed it
returns Promise.resolve(true) with no lookups; otherwise it looks up Router
and ROUTER_CONFIGURATION and branches on opts.initialNavigation: "disabled"
installs the location listener and resolves; "enabledBlocking" assigns the
afterPreactivation hook and calls router.initialNavigation() leaving the
promise pending; anything else resolves immediately.

preActivation: the navigation pipeline invoking the installed hook.  On the
first invocation it sets initNavigation, resolves the promise and returns the
resultOfPreactivationDone subject (pausing the navigation when the subject is
still pending); on later invocations it returns of(null).

bootstrapListenerCall r: bootstrapListener.  Five lookups, then the guard
bootstrappedComponentRef !== ref.components[0]; past the guard it calls
router.initialNavigation() when opts.initialNavigation is
"enabledNonBlocking" or undefined, then setUpPreloading, scroller init,
resetRootComponentType, and next plus complete on the subject.

ngOnDestroyCall: ngOnDestroy, setting destroyed. -/
def step (cfg : Config) (s : CoordState) : Event → CoordState × List Effect
  | Event.appInitializerCall =>
      (s, [Effect.injGet Token.locationInitialized])
  | Event.locationGateSettled =>
      if s.destroyed then
        ({ s with appInitResolved := true }, [])
      else
        if cfg.initialNavigation = some "disabled" then
          ({ s with appInitResolved := true },
           [Effect.injGet Token.router, Effect.injGet Token.routerConfiguration,
            Effect.setUpLocationChangeListener])
        else if cfg.initialNavigation = some "enabledBlocking" then
          ({ s with hookInstalled := true },
           [Effect.injGet Token.router, Effect.injGet Token.routerConfiguration,
            Effect.setAfterPreactivationHook, Effect.initialNavigation])
        else
          ({ s with appInitResolved := true },
           [Effect.injGet Token.router, Effect.injGet Token.routerConfiguration])
  | Event.preActivation =>
      if s.hookInstalled then
        if s.initNavigation then
          (s, [Effect.hookReturnedResolved])
        else
          ({ s with initNavigation := true
                    appInitResolved := true
                    pausedOnGate := decide (s.gate = GateState.pending) },
           [Effect.hookReturnedGate])
      else
        (s, [])
  | Event.bootstrapListenerCall r =>
      if some r ≠ cfg.firstRoot then
        (s, bootstrapLookups)
      else
        ({ s with gate := GateState.fired
                  pausedOnGate := if s.gate = GateState.pending then false else s.pausedOnGate },
         bootstrapLookups ++
           (if cfg.initialNavigation = some "enabledNonBlocking"
               ∨ cfg.initialNavigation = none
            then [Effect.initialNavigation] else []) ++
           [Effect.setUpPreloading, Effect.scrollerInit,
            Effect.resetRootComponentType, Effect.gateNextCall,
            Effect.gateCompleteCall])
  | Event.ngOnDestroyCall =>
      ({ s with destroyed := true }, [])

/-- Running a list of events from a state, accumulating the effect trace. -/
def run (cfg : Config) : CoordState → List Event → CoordState × List Effect
  | s, [] => (s, [])
  | s, e :: es =>
      ((run cfg (step cfg s e).1 es).1,
       (step cfg s e).2 ++ (run cfg (step cfg s e).1 es).2)

/-- Occurrences of a given effect in a trace. -/
def countEffect (t : Effect) : List Effect → Nat
  | [] => 0
  | e :: es => (if e = t then 1 else 0) + countEffect t es

/-- Number of bootstrapListener invocations in an event list whose component
ref is the first composed root. -/
def countFirstRootBoot (cfg : Config) : List Event → Nat
  | [] => 0
  | Event.bootstrapListenerCall r :: es =>
      (if some r = cfg.firstRoot then 1 else 0) + countFirstRootBoot cfg es
  | _ :: es => countFirstRootBoot cfg es

/-- Number of steps along a run at which the gate moves from pending to
fired: the observable firings of the completion signal. -/
def gateTransitions (cfg : Config) : CoordState → List Event → Nat
  | _, [] => 0
  | s, e :: es =>
      (if s.gate = GateState.pending ∧ (step cfg s e).1.gate = GateState.fired
       then 1 else 0) + gateTransitions cfg (step cfg s e).1 es

/-- Invariant holding from the end of the blocking branch of the
appInitializer continuation until the hook first fires: the promise is still
pending, the coordinator is alive, the hook is installed, no navigation has
reached pre-activation yet, and the gate is pending. -/
def PreResolveInv (s : CoordState) : Prop :=
  s.appInitResolved = false ∧ s.destroyed = false ∧ s.hookInstalled = true ∧
  s.initNavigation = false ∧ s.gate = GateState.pending

/-- Invariant holding from the first firing of the hook until the
post-bootstrap phase releases the gate: the navigation is paused on the
still-pending gate and the initNavigation flag is set. -/
def PausedInv (s : CoordState) : Prop :=
  s.pausedOnGate = true ∧ s.initNavigation = true ∧ s.gate = GateState.pending

theorem countEffect_append (t : Effect) (l1 l2 : List Effect) :
    countEffect t (l1 ++ l2) = countEffect t l1 + countEffect t l2 := by
  induction l1 with
  | nil => simp [countEffect]
  | cons e es ih => simp [countEffect, ih]; omega

theorem step_gate_fired (cfg : Config) (s : CoordState) (e : Event)
    (h : s.gate = GateState.fired) : (step cfg s e).1.gate = GateState.fired := by
  cases e <;> simp only [step] <;> (try split_ifs) <;> simp [h]

theorem run_gate_fired (cfg : Config) (s : CoordState) (es : List Event)
    (h : s.gate = GateState.fired) : (run cfg s es).1.gate = GateState.fired := by
  induction es generalizing s with
  | nil => simpa [run]
  | cons e es ih => simpa [run] using ih _ (step_gate_fired cfg s e h)

theorem gateTransitions_of_fired (cfg : Config) (s : CoordState) (es : List Event)
    (h : s.gate = GateState.fired) : gateTransitions cfg s es = 0 := by
  induction es generalizing s with
  | nil => simp [gateTransitions]
  | cons e es ih =>
      simp only [gateTransitions, h]
      rw [if_neg (by simp [h]), ih _ (step_gate_fired cfg s e h)]

theorem gateTransitions_le_one (cfg : Config) (s : CoordState) (es : List Event) :
    gateTransitions cfg s es ≤ 1 := by
  induction es generalizing s with
  | nil => simp [gateTransitions]
  | cons e es ih =>
      simp only [gateTransitions]
      by_cases h : s.gate = GateState.pending ∧ (step cfg s e).1.gate = GateState.fired
      · rw [if_pos h, gateTransitions_of_fired cfg _ es h.2]
      · rw [if_neg h]
        simpa using ih (step cfg s e).1

theorem initNavigation_step_mono (cfg : Config) (s : CoordState) (e : Event)
    (h : s.initNavigation = true) : (step cfg s e).1.initNavigation = true := by
  cases e <;> simp only [step] <;> (try split_ifs) <;> simp_all

theorem hookGate_step_zero (cfg : Config) (s : CoordState) (e : Event)
    (h : s.initNavigation = true) :
    countEffect Effect.hookReturnedGate (step cfg s e).2 = 0 := by
  cases e <;> simp only [step] <;> (try split_ifs) <;>
    simp_all [countEffect, countEffect_append, bootstrapLookups]

theorem hookGate_zero_of_init (cfg : Config) (s : CoordState) (es : List Event)
    (h : s.initNavigation = true) :
    countEffect Effect.hookReturnedGate (run cfg s es).2 = 0 := by
  induction es generalizing s with
  | nil => simp [run, countEffect]
  | cons e es ih =>
      simp only [run, countEffect_append]
      rw [hookGate_step_zero cfg s e h, ih _ (initNavigation_step_mono cfg s e h)]

theorem no_initialNavigation_step (cfg : Config) (s : CoordState) (e : Event)
    (h1 : cfg.initialNavigation ≠ some "enabledBlocking")
    (h2 : ¬(cfg.initialNavigation = some "enabledNonBlocking"
            ∨ cfg.initialNavigation = none)) :
    Effect.initialNavigation ∉ (step cfg s e).2 := by
  cases e <;> simp only [step] <;> (try split_ifs) <;>
    simp_all [bootstrapLookups]

theorem no_initialNavigation_run (cfg : Config) (s : CoordState) (es : List Event)
    (h1 : cfg.initialNavigation ≠ some "enabledBlocking")
    (h2 : ¬(cfg.initialNavigation = some "enabledNonBlocking"
            ∨ cfg.initialNavigation = none)) :
    Effect.initialNavigation ∉ (run cfg s es).2 := by
  induction es generalizing s with
  | nil => simp [run]
  | cons e es ih =>
      simp only [run, List.mem_append]
      push_neg
      exact ⟨no_initialNavigation_step cfg s e h1 h2, ih _⟩

theorem no_locationListener_step (cfg : Config) (s : CoordState) (e : Event)
    (h0 : cfg.initialNavigation ≠ some "disabled") :
    Effect.setUpLocationChangeListener ∉ (step cfg s e).2 := by
  cases e <;> simp only [step] <;> (try split_ifs) <;>
    simp_all [bootstrapLookups]

theorem no_locationListener_run (cfg : Config) (s : CoordState) (es : List Event)
    (h0 : cfg.initialNavigation ≠ some "disabled") :
    Effect.setUpLocationChangeListener ∉ (run cfg s es).2 := by
  induction es generalizing s with
  | nil => simp [run]
  | cons e es ih =>
      simp only [run, List.mem_append]
      push_neg
      exact ⟨no_locationListener_step cfg s e h0, ih _⟩

theorem initialNavigation_count_run (cfg : Config)
    (hp : cfg.initialNavigation = some "enabledNonBlocking"
          ∨ cfg.initialNavigation = none)
    (s : CoordState) (es : List Event) :
    countEffect Effect.initialNavigation (run cfg s es).2
      = countFirstRootBoot cfg es := by
  induction es generalizing s with
  | nil => simp [run, countEffect, countFirstRootBoot]
  | cons e es ih =>
      have hd : cfg.initialNavigation ≠ some "disabled" := by
        rcases hp with h | h <;> simp [h]
      have hb : cfg.initialNavigation ≠ some "enabledBlocking" := by
        rcases hp with h | h <;> simp [h]
      simp only [run, countEffect_append]
      rw [ih]
      cases e with
      | bootstrapListenerCall r =>
          simp only [step, countFirstRootBoot]
          by_cases hr : some r = cfg.firstRoot
          · rw [if_neg (by simp [hr]), if_pos hr]
            simp only [countEffect_append, countEffect, bootstrapLookups]
            rw [if_pos hp]
            simp [countEffect]
          · rw [if_pos (by simpa using hr), if_neg hr]
            simp [countEffect, bootstrapLookups]
      | locationGateSettled =>
          simp only [step, countFirstRootBoot]
          split_ifs <;> simp_all [countEffect]
      | appInitializerCall => simp [step, countEffect, countFirstRootBoot]
      | preActivation =>
          simp only [step, countFirstRootBoot]
          split_ifs <;> simp [countEffect]
      | ngOnDestroyCall => simp [step, countEffect, countFirstRootBoot]

theorem preResolveInv_step (cfg : Config)
    (hpol : cfg.initialNavigation = some "enabledBlocking")
    (s : CoordState) (e : Event)
    (he1 : e ≠ Event.preActivation) (he2 : e ≠ Event.ngOnDestroyCall)
    (he3 : ∀ r, e ≠ Event.bootstrapListenerCall r)
    (h : PreResolveInv s) : PreResolveInv (step cfg s e).1 := by
  obtain ⟨ha, hd, hh, hi, hg⟩ := h
  cases e with
  | appInitializerCall => exact ⟨ha, hd, hh, hi, hg⟩
  | locationGateSettled =>
      simp [step, hd, hpol, PreResolveInv, ha, hi, hg]
  | preActivation => exact absurd rfl he1
  | ngOnDestroyCall => exact absurd rfl he2
  | bootstrapListenerCall r => exact absurd rfl (he3 r)

theorem preResolveInv_run (cfg : Config)
    (hpol : cfg.initialNavigation = some "enabledBlocking")
    (s : CoordState) (es : List Event)
    (hes1 : Event.preActivation ∉ es) (hes2 : Event.ngOnDestroyCall ∉ es)
    (hes3 : ∀ r, Event.bootstrapListenerCall r ∉ es)
    (h : PreResolveInv s) : PreResolveInv (run cfg s es).1 := by
  induction es generalizing s with
  | nil => simpa [run]
  | cons e es ih =>
      simp only [List.mem_cons, not_or] at hes1 hes2
      have hes3h : ∀ r, e ≠ Event.bootstrapListenerCall r :=
        fun r hr => hes3 r (by simp [hr])
      have hes3t : ∀ r, Event.bootstrapListenerCall r ∉ es :=
        fun r hr => hes3 r (by simp [hr])
      simp only [run]
      exact ih _ hes1.2 hes2.2 hes3t
        (preResolveInv_step cfg hpol s e (Ne.symm hes1.1) (Ne.symm hes2.1) hes3h h)

theorem pausedInv_step (cfg : Config) (s : CoordState) (e : Event)
    (he : ∀ r, e ≠ Event.bootstrapListenerCall r)
    (h : PausedInv s) : PausedInv (step cfg s e).1 := by
  obtain ⟨hpau, hi, hg⟩ := h
  cases e with
  | appInitializerCall => exact ⟨hpau, hi, hg⟩
  | locationGateSettled =>
      simp only [step]
      split_ifs <;> exact ⟨hpau, hi, hg⟩
  | preActivation =>
      simp only [step, hi, if_true]
      split_ifs <;> exact ⟨hpau, hi, hg⟩
  | ngOnDestroyCall => exact ⟨hpau, hi, hg⟩
  | bootstrapListenerCall r => exact absurd rfl (he r)

theorem pausedInv_run (cfg : Config) (s : CoordState) (es : List Event)
    (hes : ∀ r, Event.bootstrapListenerCall r ∉ es)
    (h : PausedInv s) : PausedInv (run cfg s es).1 := by
  induction es generalizing s with
  | nil => simpa [run]
  | cons e es ih =>
      have hesh : ∀ r, e ≠ Event.bootstrapListenerCall r :=
        fun r hr => hes r (by simp [hr])
      have hest : ∀ r, Event.bootstrapListenerCall r ∉ es :=
        fun r hr => hes r (by simp [hr])
      simp only [run]
      exact ih _ hest (pausedInv_step cfg s e hesh h)

theorem hookGate_le_one (cfg : Config) (s : CoordState) (es : List Event) :
    countEffect Effect.hookReturnedGate (run cfg s es).2 ≤ 1 := by
  induction es generalizing s with
  | nil => simp [run, countEffect]
  | cons e es ih =>
      simp only [run, countEffect_append]
      by_cases hn : s.initNavigation = true
      · rw [hookGate_step_zero cfg s e hn,
            hookGate_zero_of_init cfg _ es (initNavigation_step_mono cfg s e hn)]
        exact Nat.zero_le 1
      · cases e with
        | preActivation =>
            have hn' : s.initNavigation = false := by simpa using hn
            by_cases h1 : s.hookInstalled = true
            · simp only [step, h1, hn', if_true, Bool.false_eq_true, if_false]
              rw [hookGate_zero_of_init cfg _ es (by simp)]
              simp [countEffect]
            · have h1' : s.hookInstalled = false := by simpa using h1
              simp only [step, h1', Bool.false_eq_true, if_false]
              simpa [countEffect] using ih s
        | appInitializerCall => simpa [step, countEffect] using ih s
        | ngOnDestroyCall => simpa [step, countEffect] using ih _
        | locationGateSettled =>
            simp only [step]
            split_ifs <;>
              simpa [countEffect, countEffect_append, bootstrapLookups] using ih _
        | bootstrapListenerCall r =>
            simp only [step]
            split_ifs <;>
              simpa [countEffect, countEffect_append, bootstrapLookups] using ih _

/-- C1 counterexample: with the unrecognized value "enabled", the
pre-bootstrap continuation does not fail; it resolves its promise and behaves
exactly as it does under "enabledNonBlocking", silently defaulting. -/
theorem C1_unrecognized_policy_counterexample :
    (step ⟨some "enabled", some 0⟩ initState
        Event.locationGateSettled).1.appInitResolved = true
    ∧ step ⟨some "enabled", some 0⟩ initState Event.locationGateSettled
        = step ⟨some "enabledNonBlocking", some 0⟩ initState
            Event.locationGateSettled := by
  decide

/-- C1 amended: a Timing Policy value outside the three recognized policies
is not rejected: the pre-bootstrap continuation takes the default else branch
and resolves its promise immediately, behaving there exactly as it does with
an absent value; and an absent value is treated identically to
"enabledNonBlocking" at every step of the coordinator. -/
theorem C1_unrecognized_policy_amended (v : String)
    (hv1 : v ≠ "disabled") (hv2 : v ≠ "enabledBlocking")
    (hv3 : v ≠ "enabledNonBlocking")
    (cfg : Config) (s : CoordState) (hd : s.destroyed = false) :
    (step { cfg with initialNavigation := some v } s
        Event.locationGateSettled).1.appInitResolved = true
    ∧ step { cfg with initialNavigation := some v } s Event.locationGateSettled
        = step { cfg with initialNavigation := none } s Event.locationGateSettled
    ∧ ∀ (s2 : CoordState) (e : Event),
        step { cfg with initialNavigation := none } s2 e
          = step { cfg with initialNavigation := some "enabledNonBlocking" } s2 e := by
  refine ⟨?_, ?_, ?_⟩
  · simp [step, hd, hv1, hv2]
  · simp [step, hd, hv1, hv2]
  · intro s2 e
    cases e <;> simp [step]

/-- C1 witness: the amended statement at the concrete unrecognized value
"enabled". -/
theorem C1_unrecognized_policy_witness :
    (step ⟨some "enabled", some 0⟩ initState
        Event.locationGateSettled).1.appInitResolved = true :=
  (C1_unrecognized_policy_amended "enabled" (by decide) (by decide) (by decide)
    ⟨some "enabled", some 0⟩ initState rfl).1

/-- C2 counterexample: after ngOnDestroy has set the destroyed flag, a
bootstrapListener invocation (here with a non-first root, which returns at
its guard) still performs dependency-container lookups. -/
theorem C2_no_lookup_after_destroy_counterexample :
    (run ⟨none, some 0⟩ initState
        [Event.ngOnDestroyCall, Event.bootstrapListenerCall 1]).1.destroyed = true
    ∧ Effect.injGet Token.routerConfiguration ∈
        (run ⟨none, some 0⟩ initState
          [Event.ngOnDestroyCall, Event.bootstrapListenerCall 1]).2 := by
  decide

/-- C2 amended: once destroyed is true, the pre-bootstrap continuation
performs no dependency-container lookup (it resolves with no outbound calls
at all); the post-bootstrap listener, however, performs its container
lookups unconditionally, even after teardown and even for a non-first
root. -/
theorem C2_no_lookup_after_destroy_amended (cfg : Config) (s : CoordState)
    (hd : s.destroyed = true) :
    (step cfg s Event.locationGateSettled).2 = []
    ∧ (∀ t, Effect.injGet t ∉ (step cfg s Event.locationGateSettled).2)
    ∧ ∀ r, Effect.injGet Token.routerConfiguration ∈
        (step cfg s (Event.bootstrapListenerCall r)).2 := by
  refine ⟨?_, ?_, ?_⟩
  · simp [step, hd]
  · simp [step, hd]
  · intro r
    simp only [step]
    split_ifs <;> simp [bootstrapLookups]

/-- C2 witness: the amended statement at a destroyed coordinator. -/
theorem C2_no_lookup_after_destroy_witness :
    (step ⟨none, some 0⟩ { initState with destroyed := true }
        Event.locationGateSettled).2 = [] :=
  (C2_no_lookup_after_destroy_amended ⟨none, some 0⟩
    { initState with destroyed := true } rfl).1

/-- C3: under "enabledBlocking" with the coordinator alive, the promise
returned by the pre-bootstrap phase stays unresolved along any continuation
that does not reach pre-activation; at the first firing of the registered
pre-activation handler the promise resolves and the handler returns the gate,
pausing the navigation; the navigation stays paused along any continuation in
which the post-bootstrap phase does not run, and the post-bootstrap phase for
the first composed root fires the gate and releases it. -/
theorem C3_blocking_promise_timing (cfg : Config)
    (hpol : cfg.initialNavigation = some "enabledBlocking")
    (r : Nat) (hr : cfg.firstRoot = some r)
    (es es2 : List Event)
    (hes1 : Event.preActivation ∉ es) (hes2 : Event.ngOnDestroyCall ∉ es)
    (hes3 : ∀ r2, Event.bootstrapListenerCall r2 ∉ es)
    (hes4 : ∀ r2, Event.bootstrapListenerCall r2 ∉ es2) :
    (run cfg (run cfg initState
        [Event.appInitializerCall, Event.locationGateSettled]).1 es).1.appInitResolved
      = false
    ∧ (step cfg (run cfg (run cfg initState
        [Event.appInitializerCall, Event.locationGateSettled]).1 es).1
          Event.preActivation).1.appInitResolved = true
    ∧ (step cfg (run cfg (run cfg initState
        [Event.appInitializerCall, Event.locationGateSettled]).1 es).1
          Event.preActivation).2 = [Effect.hookReturnedGate]
    ∧ (run cfg (step cfg (run cfg (run cfg initState
        [Event.appInitializerCall, Event.locationGateSettled]).1 es).1
          Event.preActivation).1 es2).1.pausedOnGate = true
    ∧ (step cfg (run cfg (step cfg (run cfg (run cfg initState
        [Event.appInitializerCall, Event.locationGateSettled]).1 es).1
          Event.preActivation).1 es2).1
        (Event.bootstrapListenerCall r)).1.pausedOnGate = false
    ∧ (step cfg (run cfg (step cfg (run cfg (run cfg initState
        [Event.appInitializerCall, Event.locationGateSettled]).1 es).1
          Event.preActivation).1 es2).1
        (Event.bootstrapListenerCall r)).1.gate = GateState.fired := by
  have h0 : PreResolveInv (run cfg initState
      [Event.appInitializerCall, Event.locationGateSettled]).1 := by
    simp [run, step, initState, hpol, PreResolveInv]
  have h1 := preResolveInv_run cfg hpol _ es hes1 hes2 hes3 h0
  obtain ⟨i1, i2, i3, i4, i5⟩ := h1
  have hpa : PausedInv (step cfg (run cfg (run cfg initState
      [Event.appInitializerCall, Event.locationGateSettled]).1 es).1
        Event.preActivation).1 := by
    simp [step, i3, i4, i5, PausedInv]
  have h2 := pausedInv_run cfg _ es2 hes4 hpa
  obtain ⟨j1, j2, j3⟩ := h2
  generalize hgen : (run cfg (step cfg (run cfg (run cfg initState
      [Event.appInitializerCall, Event.locationGateSettled]).1 es).1
        Event.preActivation).1 es2).1 = t at j1 j2 j3 ⊢
  refine ⟨i1, ?_, ?_, j1, ?_, ?_⟩
  · simp [step, i3, i4]
  · simp [step, i3, i4]
  · simp [step, hr, j3]
  · simp [step, hr]

/-- C3 witness: the unresolved-promise conjunct at the concrete blocking
configuration with empty continuations. -/
theorem C3_blocking_promise_timing_witness :
    (run ⟨some "enabledBlocking", some 0⟩
        (run ⟨some "enabledBlocking", some 0⟩ initState
          [Event.appInitializerCall, Event.locationGateSettled]).1 []).1.appInitResolved
      = false :=
  (C3_blocking_promise_timing ⟨some "enabledBlocking", some 0⟩ rfl 0 rfl [] []
    (by simp) (by simp) (fun r2 => by simp) (fun r2 => by simp)).1

/-- C4: under "enabledNonBlocking" or an unset policy, the pre-bootstrap
continuation resolves its promise without emitting an initialNavigation
call, and across any event sequence the number of initialNavigation calls
equals the number of post-bootstrap invocations for the first composed root:
it is called exactly once, exactly when that phase first runs for the first
root. -/
theorem C4_nonblocking_nav_once (cfg : Config)
    (hp : cfg.initialNavigation = some "enabledNonBlocking"
          ∨ cfg.initialNavigation = none)
    (s : CoordState) (hd : s.destroyed = false) (es : List Event) :
    (step cfg s Event.locationGateSettled).1.appInitResolved = true
    ∧ Effect.initialNavigation ∉ (step cfg s Event.locationGateSettled).2
    ∧ countEffect Effect.initialNavigation (run cfg s es).2
        = countFirstRootBoot cfg es := by
  have hdz : cfg.initialNavigation ≠ some "disabled" := by
    rcases hp with h | h <;> simp [h]
  have hbz : cfg.initialNavigation ≠ some "enabledBlocking" := by
    rcases hp with h | h <;> simp [h]
  refine ⟨?_, ?_, initialNavigation_count_run cfg hp s es⟩
  · simp [step, hd, hdz, hbz]
  · simp [step, hd, hdz, hbz]

/-- C4 witness: one first-root bootstrap plus one non-first-root bootstrap
yields exactly one initialNavigation call. -/
theorem C4_nonblocking_nav_once_witness :
    countEffect Effect.initialNavigation
        (run ⟨some "enabledNonBlocking", some 0⟩ initState
          [Event.appInitializerCall, Event.locationGateSettled,
           Event.bootstrapListenerCall 0, Event.bootstrapListenerCall 1]).2 = 1 :=
  ((C4_nonblocking_nav_once ⟨some "enabledNonBlocking", some 0⟩ (Or.inl rfl)
      initState rfl
      [Event.appInitializerCall, Event.locationGateSettled,
       Event.bootstrapListenerCall 0, Event.bootstrapListenerCall 1]).2.2).trans
    (by decide)

/-- C5: under "disabled" with the coordinator alive, the continuation
installs the location listener within the very step that resolves the
promise, and no event sequence ever emits an initialNavigation call. -/
theorem C5_disabled_listener_no_nav (cfg : Config)
    (hp : cfg.initialNavigation = some "disabled")
    (s : CoordState) (hd : s.destroyed = false) (es : List Event) :
    (step cfg s Event.locationGateSettled).2
      = [Effect.injGet Token.router, Effect.injGet Token.routerConfiguration,
         Effect.setUpLocationChangeListener]
    ∧ (step cfg s Event.locationGateSettled).1.appInitResolved = true
    ∧ Effect.initialNavigation ∉ (run cfg s es).2 := by
  refine ⟨?_, ?_,
    no_initialNavigation_run cfg s es (by simp [hp]) (by simp [hp])⟩
  · simp [step, hd, hp]
  · simp [step, hd, hp]

/-- C5 witness: the disabled policy at a concrete full lifecycle. -/
theorem C5_disabled_listener_no_nav_witness :
    (step ⟨some "disabled", some 0⟩ initState Event.locationGateSettled).1.appInitResolved
      = true :=
  (C5_disabled_listener_no_nav ⟨some "disabled", some 0⟩ rfl initState rfl
    [Event.bootstrapListenerCall 0]).2.1

/-- C6: with the hook installed, any invocation after the initNavigation flag
is set returns the already-resolved no-op and changes nothing; the first
invocation takes the pausing branch and sets the flag; and along any event
sequence the pausing branch is taken at most once. -/
theorem C6_hook_pauses_once (cfg : Config) (s : CoordState)
    (hh : s.hookInstalled = true) :
    (s.initNavigation = true →
        step cfg s Event.preActivation = (s, [Effect.hookReturnedResolved]))
    ∧ (s.initNavigation = false →
        (step cfg s Event.preActivation).2 = [Effect.hookReturnedGate]
        ∧ (step cfg s Event.preActivation).1.initNavigation = true)
    ∧ ∀ es, countEffect Effect.hookReturnedGate (run cfg s es).2 ≤ 1 := by
  refine ⟨?_, ?_, fun es => hookGate_le_one cfg s es⟩
  · intro hi
    simp [step, hh, hi]
  · intro hi
    constructor <;> simp [step, hh, hi]

/-- C6 witness: a subsequent invocation of the handler returns the resolved
no-op and leaves the state unchanged. -/
theorem C6_hook_pauses_once_witness :
    step ⟨some "enabledBlocking", some 0⟩
        { initState with hookInstalled := true, initNavigation := true }
        Event.preActivation
      = ({ initState with hookInstalled := true, initNavigation := true },
         [Effect.hookReturnedResolved]) :=
  (C6_hook_pauses_once ⟨some "enabledBlocking", some 0⟩
    { initState with hookInstalled := true, initNavigation := true } rfl).1 rfl

/-- C7: a post-bootstrap invocation whose component ref is not the first
composed root returns after its lookups with no state change and no
first-time side effect; the gate moves from pending to fired at most once
along any event sequence; the fired state is absorbing; and a late
subscriber to the fired gate observes completion. -/
theorem C7_post_bootstrap_idempotence (cfg : Config) (s : CoordState) (r : Nat)
    (hr : some r ≠ cfg.firstRoot) :
    step cfg s (Event.bootstrapListenerCall r) = (s, bootstrapLookups)
    ∧ (∀ es, gateTransitions cfg s es ≤ 1)
    ∧ (s.gate = GateState.fired →
        ∀ es, (run cfg s es).1.gate = GateState.fired)
    ∧ subscribeGate GateState.fired = SubscriberOutcome.completes := by
  refine ⟨?_, fun es => gateTransitions_le_one cfg s es,
    fun h es => run_gate_fired cfg s es h, rfl⟩
  simp [step, hr]

/-- C7 witness: the non-first-root conjunct at a concrete invocation. -/
theorem C7_post_bootstrap_idempotence_witness :
    step ⟨none, some 0⟩ initState (Event.bootstrapListenerCall 1)
      = (initState, bootstrapLookups) :=
  (C7_post_bootstrap_idempotence ⟨none, some 0⟩ initState 1 (by decide)).1

/-- C8: for every configuration, if ngOnDestroy runs before the
LOCATION_INITIALIZED gate settles, the pre-bootstrap promise resolves and
the whole trace holds only the initial gate lookup: no location listener, no
hook registration, no initialNavigation. -/
theorem C8_destroy_before_gate (cfg : Config) :
    (run cfg initState
        [Event.appInitializerCall, Event.ngOnDestroyCall,
         Event.locationGateSettled]).1.appInitResolved = true
    ∧ (run cfg initState
        [Event.appInitializerCall, Event.ngOnDestroyCall,
         Event.locationGateSettled]).2
      = [Effect.injGet Token.locationInitialized] := by
  constructor <;> simp [run, step, initState]

/-- C9: a configured value outside the three recognized policies makes the
pre-bootstrap continuation resolve through the default else branch with only
its two lookups, and over any event sequence neither phase ever emits an
initialNavigation or setUpLocationChangeListener call. -/
theorem C9_unrecognized_no_nav_no_listener (cfg : Config) (v : String)
    (hv : cfg.initialNavigation = some v)
    (hv1 : v ≠ "disabled") (hv2 : v ≠ "enabledBlocking")
    (hv3 : v ≠ "enabledNonBlocking")
    (s : CoordState) (hd : s.destroyed = false) (es : List Event) :
    (step cfg s Event.locationGateSettled).1.appInitResolved = true
    ∧ (step cfg s Event.locationGateSettled).2
        = [Effect.injGet Token.router, Effect.injGet Token.routerConfiguration]
    ∧ Effect.initialNavigation ∉ (run cfg s es).2
    ∧ Effect.setUpLocationChangeListener ∉ (run cfg s es).2 := by
  refine ⟨?_, ?_,
    no_initialNavigation_run cfg s es (by simp [hv, hv2]) (by simp [hv, hv3]),
    no_locationListener_run cfg s es (by simp [hv, hv1])⟩
  · simp [step, hd, hv, hv1, hv2]
  · simp [step, hd, hv, hv1, hv2]

/-- C9 witness: the legacy value "enabled" over a full lifecycle emits no
initialNavigation call. -/
theorem C9_unrecognized_no_nav_no_listener_witness :
    Effect.initialNavigation ∉
      (run ⟨some "enabled", some 0⟩ initState
        [Event.appInitializerCall, Event.locationGateSettled,
         Event.bootstrapListenerCall 0]).2 :=
  (C9_unrecognized_no_nav_no_listener ⟨some "enabled", some 0⟩ "enabled" rfl
    (by decide) (by decide) (by decide) initState rfl
    [Event.appInitializerCall, Event.locationGateSettled,
     Event.bootstrapListenerCall 0]).2.2.1

/-- C10: the first-root guard is a ref comparison, not a has-run flag: two
post-bootstrap invocations with the same first-root ref re-execute all side
effects (two initialNavigation calls under the default policy, two
setUpPreloading calls, two scroller inits), while an invocation with a
distinct non-first root performs none of them. -/
theorem C10_first_root_ref_comparison (cfg : Config) (r : Nat)
    (hr : cfg.firstRoot = some r)
    (hp : cfg.initialNavigation = some "enabledNonBlocking"
          ∨ cfg.initialNavigation = none)
    (s : CoordState) :
    countEffect Effect.initialNavigation
        (run cfg s [Event.bootstrapListenerCall r, Event.bootstrapListenerCall r]).2
      = 2
    ∧ countEffect Effect.setUpPreloading
        (run cfg s [Event.bootstrapListenerCall r, Event.bootstrapListenerCall r]).2
      = 2
    ∧ countEffect Effect.scrollerInit
        (run cfg s [Event.bootstrapListenerCall r, Event.bootstrapListenerCall r]).2
      = 2
    ∧ ∀ r2, some r2 ≠ cfg.firstRoot →
        step cfg s (Event.bootstrapListenerCall r2) = (s, bootstrapLookups) := by
  refine ⟨?_, ?_, ?_, fun r2 hr2 => by simp [step, hr2]⟩ <;>
    rcases hp with hp | hp <;>
    simp [run, step, hr, hp, countEffect_append, countEffect, bootstrapLookups]

/-- C10 witness: two first-root invocations at a concrete configuration call
initialNavigation twice. -/
theorem C10_first_root_ref_comparison_witness :
    countEffect Effect.initialNavigation
        (run ⟨none, some 5⟩ initState
          [Event.bootstrapListenerCall 5, Event.bootstrapListenerCall 5]).2 = 2 :=
  (C10_first_root_ref_comparison ⟨none, some 5⟩ 5 rfl (Or.inr rfl) initState).1
